import Mathlib

/-! A verification of the `econtext` error-context crate.

We give a shallow embedding of the core of `src/src/lib.rs`:

* a `Frame` models one `DataScope` record (module path, file, line, message, payload);
* a thread's `ERROR_STACK` is modelled by the chain of frames reachable from the
  top pointer, i.e. a `List Frame` with the innermost (most recently pushed)
  frame first — the raw `previous` pointers of the Rust code are exactly the
  tails of this list;
* `Entry::write`, `econtext_string`, `print_econtext`, `add_panic_hook` and the
  `current_function_name!` string slicing are translated function by function.

Payload `Debug` formatting is modelled by the pair of (a) the text the payload's
`fmt` method writes into the formatter and (b) whether it returns `Ok`:
for a `String` writer the underlying `write_str` never fails, so those two
pieces of data determine the observable behaviour of `write!` exactly.
-/

set_option autoImplicit false

namespace Econtext

/-- The observable behaviour of a payload's `Debug` implementation when run
against an infallible writer: the text it writes before returning, and whether
it returns `Ok(())`.  This models the `Data: Debug` bound of `DataScope`. -/
structure DebugImpl where
  out : String
  ok : Bool
deriving Repr, DecidableEq

/-- The `EmptyDebug` payload (src/src/lib.rs): its `fmt` writes nothing and returns `Ok(())`. -/
def EmptyDebug : DebugImpl := ⟨"", true⟩

/-- One `DataScope` record (src/src/lib.rs, `pub struct DataScope<Data>`),
without the `previous` pointer: in the list model of a chain the predecessor
link of a frame is the tail of the list it heads. -/
structure Frame where
  module_path : String
  file : String
  line : Nat
  message : String
  data : DebugImpl
deriving Repr, DecidableEq

/-- The output of one `Entry::write` call for frame `f`, not counting the
recursive call on `previous` (src/src/lib.rs, `impl<Data: Debug> Entry for
DataScope<Data>`).  The format string is `"  {} {}:{}: {} {:?}\n"`; `write!`
emits the literal pieces and the `Display` arguments in order into the writer,
then runs the payload's `Debug`; if that returns `Err` the trailing `"\n"`
is never written and the error is discarded by `.ok()`. -/
def writeEntry (f : Frame) : String :=
  let lineHead : String :=
    "  " ++ f.module_path ++ " " ++ f.file ++ ":" ++ toString f.line ++ ": "
      ++ f.message ++ " "
  if f.data.ok then lineHead ++ f.data.out ++ "\n" else lineHead ++ f.data.out

/-- The full output of `Entry::write` on the chain headed by the given frame:
the frame's own line followed by the recursive `previous.write(writer)` call
(src/src/lib.rs lines 77–91). -/
def writeChain : List Frame → String
  | [] => ""
  | f :: rest => writeEntry f ++ writeChain rest

/-- The function `econtext_string()` (src/src/lib.rs lines 152–162): if the top of
`ERROR_STACK` is a frame, walk the chain into a fresh `String`; otherwise
return `Default::default()`, the empty string. -/
def econtext_string (chain : List Frame) : String :=
  match chain with
  | [] => ""
  | entry :: rest => writeEntry entry ++ writeChain rest

/-- The function `print_econtext()` (src/src/lib.rs lines 136–142), with the text written
to stderr as the result: if the rendered context is non-empty it prints the
`ERROR CONTEXT:` header line and then the context (each `eprintln!` appends a
newline); otherwise it prints nothing. -/
def print_econtext (chain : List Frame) : String :=
  let context := econtext_string chain
  if context.isEmpty then "" else "ERROR CONTEXT:" ++ "\n" ++ context ++ "\n"

/-! ## The scope guard protocol

A properly nested single-thread execution is a forest of scopes.  Entering a
scope runs `DataScope::new` — which captures the current `ERROR_STACK` top as
`previous` — followed by the macro's `*stack.borrow_mut() = Some(&_scope)`
(src/src/lib.rs lines 197–203); exiting it, on any path, runs `Drop for
DataScope`, which sets the top back to `self.previous` (src/src/lib.rs lines
107–111).  A scope body may itself panic after its children ran; a panicking
child unwinds past the remaining siblings, but every armed guard's `Drop`
still runs during unwinding. -/

/-- A scope: the frame it pushes, its properly nested child scopes, and
whether its own body panics (after the children).  A forest of these describes
every properly nested enter/exit sequence, with panics at arbitrary points. -/
inductive ScopeTree where
  | scope (frame : Frame) (body : List ScopeTree) (panicsAfter : Bool)

mutual

/-- Run one scope from stack state `s` (the chain reachable from the current
`ERROR_STACK` top).  Returns the state after the scope has exited and whether
a panic is unwinding.  `DataScope::new` captures `previous := s`; the macro
pushes, making the chain `f :: previous`; the body runs; `Drop` then restores
the top to `previous` unconditionally — also when unwinding. -/
def runScope : ScopeTree → List Frame → (List Frame × Bool)
  | .scope f body p, s =>
    let previous := s
    let r := runBody body (f :: previous)
    (previous, r.2 || p)

/-- Run the children of a scope in order; a panicking child unwinds past the
remaining siblings. -/
def runBody : List ScopeTree → List Frame → (List Frame × Bool)
  | [], s => (s, false)
  | t :: ts, s =>
    let r := runScope t s
    if r.2 then (r.1, true) else runBody ts r.1

end

/-! ## Thread locality

`ERROR_STACK` is declared in a `thread_local!` block (src/src/lib.rs lines
53–55): every thread owns an independent cell, lazily initialised to `None`
(the empty chain).  We model the family of per-thread stacks as a function
from thread ids. -/

/-- The per-thread family of `ERROR_STACK` chains. -/
def TLStacks := Nat → List Frame

/-- Every thread's `ERROR_STACK` starts as `RefCell::new(None)`: the empty
chain. -/
def ERROR_STACK_init : TLStacks := fun _ => []

/-- Pushing a scope on thread `t` (an `econtext!`-family macro run on `t`)
touches only `t`'s thread-local cell. -/
def pushOn (tls : TLStacks) (t : Nat) (f : Frame) : TLStacks :=
  fun u => if u = t then f :: tls u else tls u

/-- Calling `econtext_string()` on thread `t` reads only `t`'s own
`ERROR_STACK`. -/
def econtext_string_on (tls : TLStacks) (t : Nat) : String :=
  econtext_string (tls t)

/-! ## Renderer call depth

`Entry::write` for `DataScope` ends with `previous.write(writer)` — a
recursive call through a `dyn Entry` vtable (src/src/lib.rs lines 85–89).
Rust guarantees no tail-call elimination, and a dynamic call is in any case
not eliminated, so each frame of the chain adds one native call frame to the
renderer's stack.  `writeCallDepth` is the depth of that call tree. -/

/-- Nesting depth of the `Entry::write` call chain on a given frame chain:
each call performs one nested `previous.write(writer)` call per remaining
frame. -/
def writeCallDepth : List Frame → Nat
  | [] => 0
  | _ :: rest => 1 + writeCallDepth rest

/-! ## Rendering as a state transformer

`econtext_string` takes only a shared borrow of `ERROR_STACK`
(`value.borrow()`), and `Entry::write` takes `&self`; neither function has any
way to assign to the cell or to a frame's fields.  We therefore embed both
entry points also as state transformers returning the stack they leave
behind, translated from the source's (absent) mutations. -/

/-- The function `econtext_string()` as a state transformer on the thread's chain: it reads
the chain through `value.borrow()`, renders it, and performs no assignment to
the cell or to any frame. -/
def econtext_string_run (chain : List Frame) : String × List Frame :=
  (econtext_string chain, chain)

/-- The function `print_econtext()` as a state transformer: it calls `econtext_string()`
and then only writes to stderr. -/
def print_econtext_run (chain : List Frame) : String × List Frame :=
  let r := econtext_string_run chain
  (if r.1.isEmpty then "" else "ERROR CONTEXT:" ++ "\n" ++ r.1 ++ "\n", r.2)

/-! ## The panic hook registry

`std::panic::take_hook` removes and returns the currently installed hook and
`std::panic::set_hook` installs a new one.  A hook is invoked at panic time
with the `PanicInfo`; it also sees the panicking thread's `ERROR_STACK` (which
`print_econtext` reads).  We model a hook by the text it emits as a function
of that chain and of the panic info, and the registry by the installed hook. -/

/-- The panic info handed to a hook; its content is never inspected by this
crate, so an arbitrary string models it. -/
def PanicInfo := String

/-- A panic hook: the diagnostic text it emits, given the panicking thread's
context chain and the panic info. -/
def Hook := List Frame → PanicInfo → String

/-- The process-wide hook registry (`std::panic`'s installed hook). -/
structure HookReg where
  hook : Hook

/-- The function `add_panic_hook()` (src/src/lib.rs lines 165–172): `take_hook` the
previous hook, then `set_hook` a closure that runs `print_econtext()` and then
calls the previous hook on the panic info it received. -/
def add_panic_hook (r : HookReg) : HookReg :=
  let previous_hook := r.hook
  { hook := fun chain panic_info =>
      print_econtext chain ++ previous_hook chain panic_info }

/-- A panic on a thread whose chain is `chain`, with info `info`, runs the
installed hook. -/
def triggerPanic (r : HookReg) (chain : List Frame) (info : PanicInfo) : String :=
  r.hook chain info

/-! ## `current_function_name!` string slicing

`current_function_name!` (src/src/lib.rs lines 180–188) defines a local
`fn f()`, takes `std::any::type_name` of it — which is the enclosing
function's qualified name followed by `"::f"` — and evaluates
`name.get(..name.len() - 3).unwrap()`.  `str::get` is byte-indexed: it returns
`Some` of the byte-range view iff the end index is a char boundary of the
UTF-8 byte sequence (the start, `0`, always is).  We model strings at that
level: a list of byte values. -/

/-- A UTF-8 continuation byte is one in `0x80..0xC0`. -/
def isContinuationByte (b : Nat) : Bool := 128 ≤ b && b < 192

/-- Rust `str::is_char_boundary`: `0` and the length are boundaries; an index
inside the string is a boundary iff its byte is not a continuation byte; an
index past the end is not. -/
def is_char_boundary (bytes : List Nat) (i : Nat) : Bool :=
  if i = 0 then true
  else if i = bytes.length then true
  else
    match bytes[i]? with
    | some b => !isContinuationByte b
    | none => false

/-- Rust `str::get(..i)`: the first `i` bytes, if `i` is a char boundary. -/
def str_get_to (bytes : List Nat) (i : Nat) : Option (List Nat) :=
  if is_char_boundary bytes i then some (bytes.take i) else none

/-- The UTF-8 bytes of `"::f"`, the suffix `type_name` appends for the local
item `fn f`. -/
def suffix_f : List Nat := [58, 58, 102]

/-- The `current_function_name!` computation on the reflected type name
`name`: `name.get(..name.len() - 3)`; the macro then `unwrap`s the result,
panicking on `none`.  (All reflected names here end in `"::f"`, so the
`usize` subtraction never underflows and agrees with `Nat` subtraction.) -/
def current_function_name (name : List Nat) : Option (List Nat) :=
  str_get_to name (name.length - 3)

/-! ## RefCell borrow discipline

Every access the crate makes to the thread-local `RefCell` is one of four
shapes, each a borrow acquired and released with no nested `ERROR_STACK`
access in between (`Entry::write` reads only `self` and the writer):

* `DataScope::new`: `stack.borrow().clone()` — a shared borrow for the
  duration of the expression;
* the macros' push: `*stack.borrow_mut() = Some(&_scope)`;
* `Drop for DataScope`: `*stack.borrow_mut() = self.previous`;
* `econtext_string`: `value.borrow()` held while the chain is walked, the
  walk itself performing no cell access.

`RefCell::borrow` panics iff a mutable borrow is live; `RefCell::borrow_mut`
panics iff any borrow is live.  We model the borrow flag machine and show no
sequence of the crate's operations ever panics. -/

/-- One borrow-flag transition of the thread-local `RefCell`. -/
inductive CellEvent where
  | beginBorrow
  | endBorrow
  | beginBorrowMut
  | endBorrowMut
deriving Repr, DecidableEq

/-- The borrow flags of a `RefCell`: live shared borrows and whether a mutable
borrow is live. -/
structure CellState where
  readers : Nat
  writer : Bool
deriving Repr, DecidableEq

/-- A cell with no live borrows. -/
def CellState.free : CellState := ⟨0, false⟩

/-- One step of the `RefCell` borrow machine; `none` is a borrow panic. -/
def stepEvent (s : CellState) : CellEvent → Option CellState
  | .beginBorrow => if s.writer then none else some ⟨s.readers + 1, s.writer⟩
  | .endBorrow => some ⟨s.readers - 1, s.writer⟩
  | .beginBorrowMut =>
    if s.writer || decide (0 < s.readers) then none else some ⟨s.readers, true⟩
  | .endBorrowMut => some ⟨s.readers, false⟩

/-- Run a sequence of borrow events; `none` as soon as one panics. -/
def runEvents : List CellEvent → CellState → Option CellState
  | [], s => some s
  | e :: es, s =>
    match stepEvent s e with
    | none => none
    | some s₁ => runEvents es s₁

/-- The crate's operations on the thread-local cell. -/
inductive ApiCall where
  | scopeNew
  | pushTop
  | scopeDrop
  | renderRead
deriving Repr, DecidableEq

/-- The borrow events each operation performs, read off the source: each is a
single borrow with no nested cell access before its release. -/
def eventsOf : ApiCall → List CellEvent
  | .scopeNew => [.beginBorrow, .endBorrow]
  | .pushTop => [.beginBorrowMut, .endBorrowMut]
  | .scopeDrop => [.beginBorrowMut, .endBorrowMut]
  | .renderRead => [.beginBorrow, .endBorrow]

/-- The borrow events of a whole single-thread execution: the concatenation of
its operations' events (the operations of one thread never overlap). -/
def eventsOfCalls (calls : List ApiCall) : List CellEvent :=
  calls.flatMap eventsOf

/-! ## The spec's statement of the line format

For the refinement claim about the output format we restate the spec's line
format as its own definition, to be compared with `writeEntry`/`writeChain`
(which are translated from the source). -/

/-- The line format as spec §6 words it: `  <module_path> <file>:<line>:
<message> <payload-debug-text>` with a trailing newline, where the payload
debug text is what the payload's `Debug` rendering produces (empty for
`EmptyDebug`). -/
def specFrameLine (f : Frame) : String :=
  "  " ++ f.module_path ++ " " ++ f.file ++ ":" ++ toString f.line ++ ": "
    ++ f.message ++ " " ++ f.data.out ++ "\n"

/-- The spec's rendering of a chain: the concatenation of one `specFrameLine`
per frame, innermost frame first (the chain lists the innermost frame
first). -/
def specRender : List Frame → String
  | [] => ""
  | f :: rest => specFrameLine f ++ specRender rest

/-! ## Concrete frames for witnesses and counterexamples -/

/-- A frame whose payload's `Debug` renders `4` successfully. -/
def sampleFrame : Frame := ⟨"example", "examples/example.rs", 7, "i", ⟨"4", true⟩⟩

/-- An inner frame with the `EmptyDebug` payload. -/
def innerFrame : Frame := ⟨"example", "examples/example.rs", 13, "do_stuff", EmptyDebug⟩

/-- An outer frame with a string payload. -/
def outerFrame : Frame :=
  ⟨"example", "examples/example.rs", 4, "process_file", ⟨"\"file.txt\"", true⟩⟩

/-- A frame whose payload's `Debug` writes nothing and returns `Err`. -/
def badPayloadFrame : Frame := ⟨"m", "f.rs", 1, "msg", ⟨"", false⟩⟩

/-! ## Helper lemmas -/

theorem writeEntry_length_pos (f : Frame) : 0 < (writeEntry f).length := by
  have h2 : ("  " : String).length = 2 := rfl
  unfold writeEntry
  split <;>
  · simp only [String.length_append]
    omega

theorem econtext_string_eq_writeChain (chain : List Frame) :
    econtext_string chain = writeChain chain := by
  cases chain <;> rfl

theorem writeChain_append (xs ys : List Frame) :
    writeChain (xs ++ ys) = writeChain xs ++ writeChain ys := by
  induction xs with
  | nil => simp [writeChain]
  | cons f rest ih => simp [writeChain, ih, String.append_assoc]

theorem runScope_fst (t : ScopeTree) (s : List Frame) : (runScope t s).1 = s := by
  cases t
  rfl

theorem runBody_fst (ts : List ScopeTree) (s : List Frame) :
    (runBody ts s).1 = s := by
  induction ts generalizing s with
  | nil => rfl
  | cons t ts ih =>
    show (if (runScope t s).2 then ((runScope t s).1, true)
          else runBody ts (runScope t s).1).1 = s
    rw [runScope_fst t s]
    split
    · rfl
    · exact ih s

theorem writeCallDepth_eq_length (chain : List Frame) :
    writeCallDepth chain = chain.length := by
  induction chain with
  | nil => rfl
  | cons f rest ih => simp [writeCallDepth, ih, Nat.add_comm]

theorem cfn_strip (q : List Nat) :
    current_function_name (q ++ suffix_f) = some q := by
  have hlen : (q ++ suffix_f).length = q.length + 3 := by
    simp [suffix_f]
  have hsub : (q ++ suffix_f).length - 3 = q.length := by omega
  have hget : (q ++ suffix_f)[q.length]? = some 58 := by
    rw [List.getElem?_append_right (Nat.le_refl _)]
    simp [suffix_f]
  have hbound : is_char_boundary (q ++ suffix_f) q.length = true := by
    unfold is_char_boundary
    rcases Nat.eq_zero_or_pos q.length with h0 | hpos
    · simp [h0]
    · rw [if_neg (by omega), if_neg (by omega), hget]
      decide
  unfold current_function_name str_get_to
  rw [hsub, hbound]
  simp [List.take_left]

theorem runEvents_append (xs ys : List CellEvent) (s : CellState) :
    runEvents (xs ++ ys) s =
      match runEvents xs s with
      | none => none
      | some s₁ => runEvents ys s₁ := by
  induction xs generalizing s with
  | nil => rfl
  | cons e es ih =>
    show runEvents ((e :: es) ++ ys) s = _
    rw [List.cons_append]
    cases h : stepEvent s e with
    | none => simp [runEvents, h]
    | some s₁ =>
      simp only [runEvents, h]
      exact ih s₁

theorem runEvents_call_free (c : ApiCall) :
    runEvents (eventsOf c) CellState.free = some CellState.free := by
  cases c <;> rfl

theorem runEvents_calls_free (calls : List ApiCall) :
    runEvents (eventsOfCalls calls) CellState.free = some CellState.free := by
  induction calls with
  | nil => rfl
  | cons c cs ih =>
    show runEvents (eventsOf c ++ eventsOfCalls cs) CellState.free = _
    rw [runEvents_append, runEvents_call_free c]
    exact ih

/-! ## The claims -/

/-- C1: for every properly nested execution of scope enter/exit operations on
one thread — each enter capturing the current `ERROR_STACK` top as `previous`
and pushing, each exit (normal, early, or panic unwind) running `DataScope`'s
`Drop` — the exit restores `ERROR_STACK` to exactly the `previous` captured at
that scope's entry, and after a whole forest of scopes has exited from the
empty stack the handle is empty again, at arbitrary nesting depth. -/
theorem scope_guard_roundtrip :
    (∀ (t : ScopeTree) (s : List Frame), (runScope t s).1 = s) ∧
      ∀ body : List ScopeTree, (runBody body []).1 = [] :=
  ⟨runScope_fst, fun body => runBody_fst body []⟩

/-- Auxiliary to C2: on chains whose payloads all format successfully, the
source's chain walk produces exactly the spec's rendering. -/
theorem writeChain_eq_specRender (chain : List Frame)
    (hok : ∀ f ∈ chain, f.data.ok = true) :
    writeChain chain = specRender chain := by
  induction chain with
  | nil => rfl
  | cons f rest ih =>
    have hf : f.data.ok = true := hok f (by simp)
    show writeEntry f ++ writeChain rest = specFrameLine f ++ specRender rest
    rw [ih fun g hg => hok g (List.mem_cons_of_mem _ hg)]
    unfold writeEntry specFrameLine
    rw [hf]
    simp [String.append_assoc]

/-- C2: for every non-empty chain of active frames (all of whose payloads
format successfully), `econtext_string()` returns exactly the concatenation,
innermost frame first, of one line per frame of the exact form
`  <module_path> <file>:<line>: <message> <payload-debug-text>` followed by a
newline, the payload debug text being the payload's `Debug` rendering (empty
for `EmptyDebug`). -/
theorem econtext_string_line_format (chain : List Frame) (_hne : chain ≠ [])
    (hok : ∀ f ∈ chain, f.data.ok = true) :
    econtext_string chain = specRender chain := by
  rw [econtext_string_eq_writeChain]
  exact writeChain_eq_specRender chain hok

/-- Witness for C2 on a concrete two-frame chain (inner scope listed first). -/
theorem econtext_string_line_format_witness :
    econtext_string [innerFrame, outerFrame] = specRender [innerFrame, outerFrame] :=
  econtext_string_line_format [innerFrame, outerFrame] (by decide) (by decide)

/-- C3: `econtext_string()` returns the empty string iff the thread's context
stack is empty, and `print_econtext()` writes nothing at all — not even the
`ERROR CONTEXT:` header — when the rendered string is empty. -/
theorem econtext_string_empty_iff (chain : List Frame) :
    (econtext_string chain = "" ↔ chain = []) ∧
      (econtext_string chain = "" → print_econtext chain = "") := by
  refine ⟨⟨fun h => ?_, fun h => by rw [h]; rfl⟩, fun h => ?_⟩
  · cases chain with
    | nil => rfl
    | cons f rest =>
      exfalso
      have hpos := writeEntry_length_pos f
      have hlen : (econtext_string (f :: rest)).length = 0 := by
        rw [h]
        rfl
      have : (writeEntry f ++ writeChain rest).length = 0 := hlen
      rw [String.length_append] at this
      omega
  · unfold print_econtext
    rw [h]
    rfl

/-- Witness for C3 at the empty stack. -/
theorem econtext_string_empty_iff_witness :
    econtext_string ([] : List Frame) = "" ∧ print_econtext ([] : List Frame) = "" :=
  ⟨(econtext_string_empty_iff []).1.mpr rfl,
    (econtext_string_empty_iff []).2 ((econtext_string_empty_iff []).1.mpr rfl)⟩

/-- C4 counterexample: a frame whose payload `Debug` fails does not contribute
an empty fragment.  On the one-frame chain `[badPayloadFrame]` the claim's
empty-fragment reading makes the rendered output empty; in fact `write!` has
already emitted the location/message part of the line when the payload fails,
so the output is the newline-less partial line. -/
theorem bad_payload_fragment_not_empty :
    econtext_string [badPayloadFrame] = "  m f.rs:1: msg " ∧
      econtext_string [badPayloadFrame] ≠ "" := by
  constructor
  · rfl
  · decide

/-- C4 (amended): for every chain in which some frame's payload `Debug`
formatting returns an error, rendering discards the error for that frame —
the frame contributes the partial line written before the failure, namely
`  <module_path> <file>:<line>: <message> ` followed by whatever the payload
wrote before failing, with no trailing newline — and still renders every
remaining (outer) frame of the chain; the failure never propagates. -/
theorem bad_payload_partial_fragment (pre post : List Frame) (bad : Frame)
    (h : bad.data.ok = false) :
    econtext_string (pre ++ bad :: post) =
      writeChain pre ++
        ("  " ++ bad.module_path ++ " " ++ bad.file ++ ":" ++ toString bad.line
          ++ ": " ++ bad.message ++ " " ++ bad.data.out) ++
        writeChain post := by
  rw [econtext_string_eq_writeChain, writeChain_append]
  show writeChain pre ++ (writeEntry bad ++ writeChain post) = _
  simp [writeEntry, h, String.append_assoc]

/-- Witness for C4: a failing payload between two healthy frames. -/
theorem bad_payload_partial_fragment_witness :
    econtext_string ([innerFrame] ++ badPayloadFrame :: [outerFrame]) =
      writeChain [innerFrame] ++
        ("  " ++ badPayloadFrame.module_path ++ " " ++ badPayloadFrame.file ++ ":"
          ++ toString badPayloadFrame.line ++ ": " ++ badPayloadFrame.message ++ " "
          ++ badPayloadFrame.data.out) ++
        writeChain [outerFrame] :=
  bad_payload_partial_fragment [innerFrame] [outerFrame] badPayloadFrame rfl

/-- C5: the core's panic sources are absent: the `current_function_name!`
slicing succeeds on every reflected type name (every such name is the
enclosing function's qualified name followed by the ASCII bytes `"::f"`, so
the cut index is a char boundary and `unwrap` never fires), and every
single-thread sequence of the crate's `RefCell` operations — scope creation,
push, drop, and the render read, each a borrow released before the next cell
access — runs without a borrow panic, ending with the cell free. -/
theorem core_never_panics :
    (∀ q : List Nat, (current_function_name (q ++ suffix_f)).isSome = true) ∧
      ∀ calls : List ApiCall,
        runEvents (eventsOfCalls calls) CellState.free = some CellState.free :=
  ⟨fun q => by rw [cfn_strip q]; rfl, runEvents_calls_free⟩

/-- C6: `add_panic_hook()` composes with the previously installed hook rather
than replacing it: after installation, a panic first produces
`print_econtext()`'s output and then the previous hook's output on the
original, unmodified panic info. -/
theorem add_panic_hook_composes :
    ∀ (r : HookReg) (chain : List Frame) (info : PanicInfo),
      triggerPanic (add_panic_hook r) chain info =
        print_econtext chain ++ triggerPanic r chain info :=
  fun _ _ _ => rfl

/-- C7 counterexample: no constant bounds the renderer's call depth over all
chains — `Entry::write` makes one nested (dynamic, hence not tail-eliminated)
call per predecessor, so a chain one longer than any proposed bound exceeds
it. -/
theorem renderer_depth_unbounded :
    ¬ ∃ c : Nat, ∀ chain : List Frame, writeCallDepth chain ≤ c := by
  rintro ⟨c, hc⟩
  have h := hc (List.replicate (c + 1) sampleFrame)
  rw [writeCallDepth_eq_length, List.length_replicate] at h
  omega

/-- C7 (amended): the renderer recurses over the predecessor links —
`DataScope`'s `Entry::write` ends in a nested `previous.write(writer)` call —
so rendering a chain of `n` frames uses call depth exactly `n`: linear in the
chain length, not bounded by a constant. -/
theorem renderer_depth_linear :
    ∀ chain : List Frame, writeCallDepth chain = chain.length :=
  writeCallDepth_eq_length

/-- C8: `current_function_name!` yields the enclosing function's qualified
name: the reflected type name of the local item `fn f` is that qualified name
followed by the fixed three-byte suffix `"::f"`, and the macro's slicing
removes exactly that suffix. -/
theorem current_function_name_strips_suffix :
    ∀ q : List Nat, current_function_name (q ++ suffix_f) = some q :=
  cfn_strip

/-- C9: context stacks are strictly per-thread: a frame pushed on thread `t₁`
changes neither the chain nor the rendered output of any other thread `t₂`
(so any interleaving of the two threads' operations gives `t₂` the same view),
and every thread's `ERROR_STACK` starts empty, rendering to the empty
string. -/
theorem thread_local_isolation :
    (∀ (tls : TLStacks) (t₁ t₂ : Nat) (f : Frame), t₁ ≠ t₂ →
        pushOn tls t₁ f t₂ = tls t₂ ∧
          econtext_string_on (pushOn tls t₁ f) t₂ = econtext_string_on tls t₂) ∧
      ∀ t : Nat, econtext_string_on ERROR_STACK_init t = "" := by
  constructor
  · intro tls t₁ t₂ f hne
    have hcell : pushOn tls t₁ f t₂ = tls t₂ := by
      show (if t₂ = t₁ then f :: tls t₂ else tls t₂) = tls t₂
      rw [if_neg fun hEq => hne hEq.symm]
    exact ⟨hcell, by unfold econtext_string_on; rw [hcell]⟩
  · intro t
    rfl

/-- Witness for C9: a push on thread `0` is invisible to thread `1`. -/
theorem thread_local_isolation_witness :
    pushOn ERROR_STACK_init 0 sampleFrame 1 = ERROR_STACK_init 1 ∧
      econtext_string_on (pushOn ERROR_STACK_init 0 sampleFrame) 1 =
        econtext_string_on ERROR_STACK_init 1 :=
  thread_local_isolation.1 ERROR_STACK_init 0 1 sampleFrame (by decide)

/-- C10: rendering is read-only with respect to the context stack: both
`econtext_string()` and `print_econtext()` leave the `ERROR_STACK` top and
every frame's fields (predecessor link, location, message, payload) exactly as
they were. -/
theorem rendering_read_only :
    ∀ chain : List Frame,
      (econtext_string_run chain).2 = chain ∧ (print_econtext_run chain).2 = chain :=
  fun _ => ⟨rfl, rfl⟩

end Econtext
